import Mathlib

/-!
# Verification of the KoguHelper FFI surface (KoguHelper.h)

The repository ships the C declaration surface of a privileged-helper
daemon manager and its XPC operation client
(`src/src-tauri/swift/KoguHelper/Sources/KoguHelper/include/KoguHelper.h`).
The Swift implementation behind those declarations is not part of the
repository snapshot, so the behavioural definitions below are modelled
from the specification; the numeric constants and the shapes of the
operations are taken directly from the header.
-/

namespace Kogu

/-! ## Result codes (from KoguHelper.h, lines 20-24) -/

/-- `#define KOGU_RESULT_SUCCESS 0` in KoguHelper.h. -/
def KOGU_RESULT_SUCCESS : Nat := 0

/-- `#define KOGU_RESULT_NOT_REGISTERED 1` in KoguHelper.h. -/
def KOGU_RESULT_NOT_REGISTERED : Nat := 1

/-- `#define KOGU_RESULT_REQUIRES_APPROVAL 2` in KoguHelper.h. -/
def KOGU_RESULT_REQUIRES_APPROVAL : Nat := 2

/-- `#define KOGU_RESULT_ERROR 3` in KoguHelper.h. -/
def KOGU_RESULT_ERROR : Nat := 3

/-- `#define KOGU_RESULT_NOT_AVAILABLE 4` in KoguHelper.h. -/
def KOGU_RESULT_NOT_AVAILABLE : Nat := 4

/-- The `DaemonStatus` enumeration of the spec: the five result values of
the registration surface. -/
inductive KoguResult where
  | Success
  | NotRegistered
  | RequiresApproval
  | Error
  | NotAvailable
  deriving DecidableEq, Repr

/-- Numeric encoding of a `KoguResult` as returned across the C boundary
(`int32_t` result codes of KoguHelper.h). -/
def KoguResult.toCode : KoguResult → Nat
  | .Success => 0
  | .NotRegistered => 1
  | .RequiresApproval => 2
  | .Error => 3
  | .NotAvailable => 4

/-! ## Registration manager state -/

/-- Modelled from the spec: the authoritative, externally mutable state the
Daemon Registration Manager reads; the Swift implementation behind
`kogu_register_daemon` and friends is missing from the snapshot. Fields:
whether the OS platform supports the service (macOS 13+), any OS-level
error with its diagnostic text, whether the service is registered, and
whether the user has approved it in System Settings. -/
structure SystemState where
  platformAvailable : Bool
  osError : Option String
  registered : Bool
  approved : Bool
  deriving DecidableEq, Repr

/-- Modelled from the spec: the derived `DaemonStatus` (spec section 3,
"it is derived, not cached — every query re-reads the authoritative
source"); implementation of `kogu_get_daemon_status_code` is missing. -/
def daemonStatus (st : SystemState) : KoguResult :=
  if !st.platformAvailable then .NotAvailable
  else if st.osError.isSome then .Error
  else if !st.registered then .NotRegistered
  else if !st.approved then .RequiresApproval
  else .Success

/-- Modelled from the spec: `kogu_get_daemon_status_code` — status query
with no side effects, returning the current status code (spec 4.1);
the Swift body is missing from the snapshot. -/
def kogu_get_daemon_status_code (st : SystemState) : Nat × SystemState :=
  ((daemonStatus st).toCode, st)

/-- Modelled from the spec: `kogu_register_daemon` — requests the OS
register the privileged service, may leave the service pending user
approval; returns a code among Success, RequiresApproval, Error,
NotAvailable (spec 4.1); the Swift body is missing from the snapshot. -/
def kogu_register_daemon (st : SystemState) : Nat × SystemState :=
  if !st.platformAvailable then (KoguResult.NotAvailable.toCode, st)
  else if st.osError.isSome then (KoguResult.Error.toCode, st)
  else if st.approved then (KoguResult.Success.toCode, { st with registered := true })
  else (KoguResult.RequiresApproval.toCode, { st with registered := true })

/-- Modelled from the spec: `kogu_unregister_daemon` — requests removal of
the registration, returns Success or Error (spec 4.1); the Swift body is
missing from the snapshot. -/
def kogu_unregister_daemon (st : SystemState) : Nat × SystemState :=
  if !st.platformAvailable then (KoguResult.NotAvailable.toCode, st)
  else if st.osError.isSome then (KoguResult.Error.toCode, st)
  else (KoguResult.Success.toCode, { st with registered := false, approved := false })

/-- Modelled from the spec: `kogu_get_daemon_error_message` — returns the
diagnostic string when the current status is Error, else NULL (spec 4.1:
"each call reflects current status", never leaking prior error text);
the Swift body is missing from the snapshot. -/
def kogu_get_daemon_error_message (st : SystemState) : Option String :=
  if daemonStatus st = .Error then st.osError else none

/-! ## Boundary string release -/

/-- A heap-allocated boundary string is identified by a pointer value. -/
abbrev Ptr := Nat

/-- The set of live heap allocations handed across the C boundary. -/
structure Heap where
  allocated : List Ptr
  deriving DecidableEq, Repr

/-- Modelled from the spec: `kogu_free_string` — releases a boundary
string; "safe to call with null" per the header comment, a no-op on an
absent value (spec section 6); the Swift body is missing from the
snapshot. -/
def kogu_free_string (h : Heap) (str : Option Ptr) : Heap :=
  match str with
  | none => h
  | some p => { allocated := h.allocated.erase p }

/-! ## XPC connection -/

/-- Connection states of the IPC Connection component (spec 4.3). -/
inductive ConnState where
  | Disconnected
  | Connected
  deriving DecidableEq, Repr

/-- Modelled from the spec: the state read and updated by the XPC client
functions, whose Swift bodies are missing from the snapshot. `conn` is the
logical channel state, `daemonAlive` whether the daemon answers on the
channel, `daemonPrivileged` whether it holds the raw-socket privilege, and
`live` the ids of in-flight (non-terminal) operations. -/
structure XpcState where
  conn : ConnState
  daemonAlive : Bool
  daemonPrivileged : Bool
  live : List String
  deriving DecidableEq, Repr

/-- Modelled from the spec: `kogu_xpc_connect` — attempts to establish the
channel, leaves the state Disconnected on failure (spec 4.3); the Swift
body is missing from the snapshot. -/
def kogu_xpc_connect (st : XpcState) : Bool × XpcState :=
  if st.daemonAlive then (true, { st with conn := .Connected })
  else (false, { st with conn := .Disconnected })

/-- Modelled from the spec: `kogu_xpc_disconnect` — tears down the channel,
idempotent (spec 4.3); the Swift body is missing from the snapshot. -/
def kogu_xpc_disconnect (st : XpcState) : XpcState :=
  { st with conn := .Disconnected }

/-- Modelled from the spec: `kogu_xpc_ping` — liveness probe, true iff the
daemon answered, false on any failure including not-connected, never
raising (spec 4.3); the Swift body is missing from the snapshot. -/
def kogu_xpc_ping (st : XpcState) : Bool :=
  match st.conn with
  | .Disconnected => false
  | .Connected => st.daemonAlive

/-- Modelled from the spec: `kogu_xpc_cancel` — requests termination of a
specific in-flight operation by id; true only if a live operation with
that id existed and the cancel signal was dispatched, false (and a no-op)
for an unknown or already-terminal id (spec 4.4); the Swift body is
missing from the snapshot. -/
def kogu_xpc_cancel (st : XpcState) (id : String) : Bool × XpcState :=
  if id ∈ st.live then (true, { st with live := st.live.erase id })
  else (false, st)

/-! ## Operations, frames and progress dispatch -/

/-- The error taxonomy surfaced to callers (spec 4.4). -/
inductive XpcError where
  | NotConnected
  | Timeout
  | DaemonRejected
  | DaemonError (msg : String)
  | Cancelled
  deriving DecidableEq, Repr

/-- Diagnostic text for an `XpcError`, as stored in `out_error_message`. -/
def XpcError.message : XpcError → String
  | .NotConnected => "not connected"
  | .Timeout => "timeout"
  | .DaemonRejected => "daemon rejected request"
  | .DaemonError msg => msg
  | .Cancelled => "cancelled"

/-- Terminal outcome of one operation (spec section 3: Completed, Failed
or Cancelled). -/
inductive Outcome where
  | Completed
  | Failed (msg : String)
  | Cancelled
  deriving DecidableEq, Repr

/-- One event of a single operation as seen by its progress sink: either a
progress payload (opaque bytes) or the terminal outcome. -/
inductive OpEvent where
  | progress (data : List Nat)
  | terminal (o : Outcome)
  deriving DecidableEq, Repr

/-- One frame pushed by the daemon over the shared channel, tagged with the
id of the operation it belongs to. -/
inductive Frame where
  | progress (id : String) (data : List Nat)
  | terminal (id : String) (o : Outcome)
  deriving DecidableEq, Repr

/-- The operation id a frame is tagged with. -/
def Frame.opId : Frame → String
  | .progress id _ => id
  | .terminal id _ => id

/-- Modelled from the spec: per-operation delivery — the client invokes the
sink for each progress frame in the daemon's emission order, stops at the
first terminal frame, and discards any trailing frames (spec section 5);
the Swift dispatch code is missing from the snapshot. -/
def deliver : List OpEvent → List OpEvent
  | [] => []
  | .progress d :: rest => .progress d :: deliver rest
  | .terminal o :: _ => [.terminal o]

/-- Projection of the shared channel's frame stream onto one operation:
the events tagged with that id, in emission order. -/
def project (id : String) (frames : List Frame) : List OpEvent :=
  frames.filterMap fun f =>
    match f with
    | .progress i d => if i = id then some (.progress d) else none
    | .terminal i o => if i = id then some (.terminal o) else none

/-- Modelled from the spec: the demultiplexing dispatch loop — each
incoming frame is routed to the sink registered for its id, and once an
operation's terminal frame has been dispatched every later frame for that
id is discarded (spec section 5); the Swift dispatch code is missing from
the snapshot. The result is the interleaved sequence of (sink id, event)
invocations. -/
def dispatch (terminated : List String) : List Frame → List (String × OpEvent)
  | [] => []
  | f :: rest =>
    if f.opId ∈ terminated then dispatch terminated rest
    else
      match f with
      | .progress i d => (i, .progress d) :: dispatch terminated rest
      | .terminal i o => (i, .terminal o) :: dispatch (i :: terminated) rest

/-- The subsequence of dispatched invocations that one sink receives. -/
def sinkOf (id : String) (l : List (String × OpEvent)) : List OpEvent :=
  l.filterMap fun p => if p.1 = id then some p.2 else none

/-- The terminal result of an operation, read off the first terminal event
the daemon emitted for it; an execution with no terminal frame times out. -/
def outcomeOf : List OpEvent → Except XpcError Unit
  | [] => .error .Timeout
  | .progress _ :: rest => outcomeOf rest
  | .terminal .Completed :: _ => .ok ()
  | .terminal (.Failed msg) :: _ => .error (.DaemonError msg)
  | .terminal .Cancelled :: _ => .error .Cancelled

/-- Translation of an operation result to the C boundary pair: the boolean
return value and the `out_error_message` slot (caller-freed, NULL on
success). -/
def ffiResult : Except XpcError Unit → Bool × Option String
  | .ok _ => (true, none)
  | .error e => (false, some e.message)

/-- Modelled from the spec: `kogu_xpc_discover` — starts a discovery
operation; while disconnected it fails immediately with NotConnected,
invoking no sink and issuing no fake terminal state; otherwise it delivers
the daemon's progress frames for this operation to the sink and returns
the terminal result (spec 4.4); the Swift body is missing from the
snapshot. `frames` is the stream the daemon emits for this operation.
Returns the boundary result, the sink's invocation trace, and the state. -/
def kogu_xpc_discover (st : XpcState) (request_json : List Nat)
    (frames : List OpEvent) : (Bool × Option String) × List OpEvent × XpcState :=
  if st.conn = .Disconnected then
    (ffiResult (.error .NotConnected), [], st)
  else
    (ffiResult (outcomeOf frames), deliver frames, st)

/-- Modelled from the spec: `kogu_xpc_scan` — identical contract to
`kogu_xpc_discover`, different request kind (spec 4.4); the Swift body is
missing from the snapshot. -/
def kogu_xpc_scan (st : XpcState) (request_json : List Nat)
    (frames : List OpEvent) : (Bool × Option String) × List OpEvent × XpcState :=
  if st.conn = .Disconnected then
    (ffiResult (.error .NotConnected), [], st)
  else
    (ffiResult (outcomeOf frames), deliver frames, st)

/-- Modelled from the spec: `kogu_xpc_check_privileges` — a single round
trip asking whether the daemon holds the raw-socket privilege; fails
immediately with NotConnected while disconnected (spec 4.4); the Swift
body is missing from the snapshot. Returns the boolean result, the
`out_is_privileged` slot and the `out_error_message` slot. -/
def kogu_xpc_check_privileges (st : XpcState) : Bool × Bool × Option String :=
  if st.conn = .Disconnected then
    (false, false, some XpcError.NotConnected.message)
  else if !st.daemonAlive then
    (false, false, some XpcError.Timeout.message)
  else
    (true, st.daemonPrivileged, none)

/-- The list of the five numeric result codes of the registration surface. -/
def resultCodes : List Nat :=
  [KOGU_RESULT_SUCCESS, KOGU_RESULT_NOT_REGISTERED, KOGU_RESULT_REQUIRES_APPROVAL,
   KOGU_RESULT_ERROR, KOGU_RESULT_NOT_AVAILABLE]

/-! ## Helper lemmas -/

theorem sinkOf_cons (id sid : String) (e : OpEvent) (l : List (String × OpEvent)) :
    sinkOf id ((sid, e) :: l) =
      if sid = id then e :: sinkOf id l else sinkOf id l := by
  by_cases h : sid = id <;> simp [sinkOf, List.filterMap_cons, h]

theorem project_cons_progress (id i : String) (d : List Nat) (rest : List Frame) :
    project id (.progress i d :: rest) =
      if i = id then OpEvent.progress d :: project id rest else project id rest := by
  by_cases h : i = id <;> simp [project, List.filterMap_cons, h]

theorem project_cons_terminal (id i : String) (o : Outcome) (rest : List Frame) :
    project id (.terminal i o :: rest) =
      if i = id then OpEvent.terminal o :: project id rest else project id rest := by
  by_cases h : i = id <;> simp [project, List.filterMap_cons, h]

theorem dispatch_cons_progress (term : List String) (i : String) (d : List Nat)
    (rest : List Frame) :
    dispatch term (.progress i d :: rest) =
      if i ∈ term then dispatch term rest
      else (i, OpEvent.progress d) :: dispatch term rest := by
  by_cases h : i ∈ term <;> simp [dispatch, Frame.opId, h]

theorem dispatch_cons_terminal (term : List String) (i : String) (o : Outcome)
    (rest : List Frame) :
    dispatch term (.terminal i o :: rest) =
      if i ∈ term then dispatch term rest
      else (i, OpEvent.terminal o) :: dispatch (i :: term) rest := by
  by_cases h : i ∈ term <;> simp [dispatch, Frame.opId, h]

/-- In a delivered per-operation trace, the terminal event (when present)
sits at the last position. -/
theorem deliver_terminal_last (l : List OpEvent) (i : Nat) (o : Outcome)
    (h : (deliver l)[i]? = some (.terminal o)) : i + 1 = (deliver l).length := by
  induction l generalizing i with
  | nil => simp [deliver] at h
  | cons e rest ih =>
    cases e with
    | progress d =>
      cases i with
      | zero => simp [deliver] at h
      | succ i =>
        simp only [deliver, List.getElem?_cons_succ] at h
        have hlen := ih i h
        simp only [deliver, List.length_cons]
        omega
    | terminal o' =>
      simp only [deliver] at h ⊢
      cases i with
      | zero => rfl
      | succ i => simp at h

/-- Demultiplexing correctness: the subsequence of dispatched invocations a
sink receives is exactly the delivery of the daemon frames tagged with its
id, for any set of already-terminated ids not containing it. -/
theorem sinkOf_dispatch (id : String) (frames : List Frame) :
    ∀ term : List String,
      sinkOf id (dispatch term frames) =
        if id ∈ term then [] else deliver (project id frames) := by
  induction frames with
  | nil =>
    intro term
    by_cases h : id ∈ term <;> simp [dispatch, sinkOf, project, deliver, h]
  | cons f rest ih =>
    intro term
    cases f with
    | progress i d =>
      rw [dispatch_cons_progress, project_cons_progress]
      by_cases hf : i ∈ term
      · rw [if_pos hf, ih term]
        by_cases hid : id ∈ term
        · simp [hid]
        · have hne : ¬ i = id := fun he => hid (he ▸ hf)
          rw [if_neg hne]
      · rw [if_neg hf, sinkOf_cons]
        by_cases hip : i = id
        · subst hip
          rw [if_pos rfl, if_pos rfl, ih term, if_neg hf, if_neg hf]
          rfl
        · rw [if_neg hip, if_neg hip, ih term]
    | terminal i o =>
      rw [dispatch_cons_terminal, project_cons_terminal]
      by_cases hf : i ∈ term
      · rw [if_pos hf, ih term]
        by_cases hid : id ∈ term
        · simp [hid]
        · have hne : ¬ i = id := fun he => hid (he ▸ hf)
          rw [if_neg hne]
      · rw [if_neg hf, sinkOf_cons]
        by_cases hip : i = id
        · subst hip
          rw [if_pos rfl, if_pos rfl, ih (i :: term),
            if_pos (List.mem_cons_self i term), if_neg hf]
          rfl
        · rw [if_neg hip, if_neg hip, ih (i :: term)]
          by_cases hid : id ∈ term
          · rw [if_pos hid, if_pos (List.mem_cons_of_mem i hid)]
          · have hnotin : id ∉ i :: term := by
              intro hmem
              rcases List.mem_cons.mp hmem with he | hm
              · exact hip he.symm
              · exact hid hm
            rw [if_neg hnotin, if_neg hid]

/-- A daemon status of Error implies a present OS error message. -/
theorem daemonStatus_error_isSome (st : SystemState)
    (h : daemonStatus st = .Error) : st.osError.isSome := by
  unfold daemonStatus at h
  split_ifs at h with h1 h2
  exact h2

/-! ## Claim theorems -/

/-- C1: every operation of the registration query/request surface returns a
result code among exactly the five values, with the fixed numeric mapping
Success=0, NotRegistered=1, RequiresApproval=2, Error=3, NotAvailable=4;
the diagnostic-message operation produces text exactly under the Error
code. -/
theorem C1_result_code_surface :
    (KoguResult.toCode .Success = KOGU_RESULT_SUCCESS ∧
     KoguResult.toCode .NotRegistered = KOGU_RESULT_NOT_REGISTERED ∧
     KoguResult.toCode .RequiresApproval = KOGU_RESULT_REQUIRES_APPROVAL ∧
     KoguResult.toCode .Error = KOGU_RESULT_ERROR ∧
     KoguResult.toCode .NotAvailable = KOGU_RESULT_NOT_AVAILABLE) ∧
    ∀ st : SystemState,
      (kogu_register_daemon st).1 ∈ resultCodes ∧
      (kogu_unregister_daemon st).1 ∈ resultCodes ∧
      (kogu_get_daemon_status_code st).1 ∈ resultCodes ∧
      (∀ m, kogu_get_daemon_error_message st = some m →
        (kogu_get_daemon_status_code st).1 = KOGU_RESULT_ERROR) := by
  refine ⟨by decide, fun st => ⟨?_, ?_, ?_, ?_⟩⟩
  · unfold kogu_register_daemon
    split_ifs <;>
      simp [resultCodes, KoguResult.toCode, KOGU_RESULT_SUCCESS,
        KOGU_RESULT_NOT_REGISTERED, KOGU_RESULT_REQUIRES_APPROVAL,
        KOGU_RESULT_ERROR, KOGU_RESULT_NOT_AVAILABLE]
  · unfold kogu_unregister_daemon
    split_ifs <;>
      simp [resultCodes, KoguResult.toCode, KOGU_RESULT_SUCCESS,
        KOGU_RESULT_NOT_REGISTERED, KOGU_RESULT_REQUIRES_APPROVAL,
        KOGU_RESULT_ERROR, KOGU_RESULT_NOT_AVAILABLE]
  · show ((daemonStatus st).toCode, st).1 ∈ resultCodes
    cases daemonStatus st <;>
      simp [resultCodes, KoguResult.toCode, KOGU_RESULT_SUCCESS,
        KOGU_RESULT_NOT_REGISTERED, KOGU_RESULT_REQUIRES_APPROVAL,
        KOGU_RESULT_ERROR, KOGU_RESULT_NOT_AVAILABLE]
  · intro m hm
    unfold kogu_get_daemon_error_message at hm
    by_cases h : daemonStatus st = .Error
    · show (daemonStatus st).toCode = KOGU_RESULT_ERROR
      rw [h]
      decide
    · rw [if_neg h] at hm
      exact Option.noConfusion hm

/-- C1 witness: the mapping and the membership evaluated at a concrete
state, via the theorem. -/
theorem C1_result_code_surface_witness :
    (kogu_register_daemon ⟨true, none, false, false⟩).1 ∈ resultCodes ∧
    (kogu_get_daemon_status_code ⟨true, some "boom", true, true⟩).1 =
      KOGU_RESULT_ERROR :=
  ⟨(C1_result_code_surface.2 ⟨true, none, false, false⟩).1,
   (C1_result_code_surface.2 ⟨true, some "boom", true, true⟩).2.2.2 "boom" (by decide)⟩

/-- C2: no progress-sink invocation for an operation occurs after that
operation's terminal event — in the dispatched invocation sequence, every
event a sink receives sits at or before its terminal event. -/
theorem C2_progress_precedes_terminal (frames : List Frame) (id : String)
    (i j : Nat) (o : Outcome) (e : OpEvent)
    (hterm : (sinkOf id (dispatch [] frames))[i]? = some (.terminal o))
    (hev : (sinkOf id (dispatch [] frames))[j]? = some e) : j ≤ i := by
  have hd := sinkOf_dispatch id frames []
  rw [if_neg (List.not_mem_nil id)] at hd
  rw [hd] at hterm hev
  have hi := deliver_terminal_last _ i o hterm
  have hj : j < (deliver (project id frames)).length := by
    by_contra hge
    rw [List.getElem?_eq_none (Nat.le_of_not_lt hge)] at hev
    exact Option.noConfusion hev
  omega

/-- C2 witness: a concrete two-frame execution where the progress event
precedes the terminal event. -/
theorem C2_progress_precedes_terminal_witness :
    (sinkOf "a" (dispatch [] [Frame.progress "a" [1], Frame.terminal "a" .Completed]))[1]? =
      some (OpEvent.terminal .Completed) ∧ (0 : Nat) ≤ 1 :=
  ⟨by decide,
   C2_progress_precedes_terminal [Frame.progress "a" [1], Frame.terminal "a" .Completed]
     "a" 1 0 .Completed (.progress [1]) (by decide) (by decide)⟩

/-- C3: any operation issued while the connection is Disconnected fails
immediately with the NotConnected error: the boolean result is false with
the NotConnected message, the sink is never invoked (no fake terminal
state), and the state is unchanged (no implicit reconnect). -/
theorem C3_disconnected_fails_immediately (st : XpcState) (req : List Nat)
    (frames : List OpEvent) (h : st.conn = .Disconnected) :
    kogu_xpc_discover st req frames =
      ((false, some XpcError.NotConnected.message), [], st) ∧
    kogu_xpc_scan st req frames =
      ((false, some XpcError.NotConnected.message), [], st) ∧
    kogu_xpc_check_privileges st = (false, false, some XpcError.NotConnected.message) := by
  refine ⟨?_, ?_, ?_⟩ <;>
    simp [kogu_xpc_discover, kogu_xpc_scan, kogu_xpc_check_privileges, h, ffiResult]

/-- C3 witness: the state reached immediately after a disconnect satisfies
the property concretely. -/
theorem C3_disconnected_fails_immediately_witness :
    kogu_xpc_discover (kogu_xpc_disconnect ⟨.Connected, true, true, []⟩) [] [] =
      ((false, some XpcError.NotConnected.message), [],
        kogu_xpc_disconnect ⟨.Connected, true, true, []⟩) :=
  (C3_disconnected_fails_immediately (kogu_xpc_disconnect ⟨.Connected, true, true, []⟩)
    [] [] rfl).1

/-- C4: cancel returns true exactly when a live operation with the given id
existed (and then dispatches the cancel); for an unknown or already
terminal id it returns false and is a no-op, never a fault. -/
theorem C4_cancel_unknown_id (st : XpcState) (id : String) :
    ((kogu_xpc_cancel st id).1 = true ↔ id ∈ st.live) ∧
    (id ∉ st.live → kogu_xpc_cancel st id = (false, st)) := by
  constructor
  · by_cases h : id ∈ st.live <;> simp [kogu_xpc_cancel, h]
  · intro h
    simp [kogu_xpc_cancel, h]

/-- C4 witness: cancelling an id never issued is a no-op returning false;
cancelling a live id returns true. -/
theorem C4_cancel_unknown_id_witness :
    kogu_xpc_cancel ⟨.Connected, true, true, ["a"]⟩ "b" =
      (false, ⟨.Connected, true, true, ["a"]⟩) ∧
    (kogu_xpc_cancel ⟨.Connected, true, true, ["a"]⟩ "a").1 = true :=
  ⟨(C4_cancel_unknown_id ⟨.Connected, true, true, ["a"]⟩ "b").2 (by decide),
   (C4_cancel_unknown_id ⟨.Connected, true, true, ["a"]⟩ "a").1.mpr (by decide)⟩

/-- C5: ping returns true iff the channel is connected and the daemon
answered; it returns false — a normal negative result, not a fault — in
every other case, in particular right after a disconnect. -/
theorem C5_ping_liveness (st : XpcState) :
    (kogu_xpc_ping st = true ↔ st.conn = .Connected ∧ st.daemonAlive = true) ∧
    kogu_xpc_ping (kogu_xpc_disconnect st) = false := by
  obtain ⟨c, a, p, l⟩ := st
  cases c <;> simp [kogu_xpc_ping, kogu_xpc_disconnect]

/-- C5 witness: ping is true on a connected live channel and false right
after disconnecting it. -/
theorem C5_ping_liveness_witness :
    kogu_xpc_ping ⟨.Connected, true, true, []⟩ = true ∧
    kogu_xpc_ping (kogu_xpc_disconnect ⟨.Connected, true, true, []⟩) = false :=
  ⟨(C5_ping_liveness ⟨.Connected, true, true, []⟩).1.mpr ⟨rfl, rfl⟩,
   (C5_ping_liveness ⟨.Connected, true, true, []⟩).2⟩

/-- C6: for every interleaved channel stream and every operation id, the
sink registered for that id receives exactly the events the daemon tagged
with that id, in emission order and stopping at its terminal — hence no
cross-delivery between concurrent operations. -/
theorem C6_sink_receives_exactly_own (frames : List Frame) (id : String) :
    sinkOf id (dispatch [] frames) = deliver (project id frames) := by
  rw [sinkOf_dispatch id frames [], if_neg (List.not_mem_nil id)]

/-- C7: the status query has no side effects — it returns the state it was
given — and two consecutive calls with no intervening external change
return the same code. -/
theorem C7_status_idempotent (st : SystemState) :
    (kogu_get_daemon_status_code st).2 = st ∧
    (kogu_get_daemon_status_code ((kogu_get_daemon_status_code st).2)).1 =
      (kogu_get_daemon_status_code st).1 :=
  ⟨rfl, rfl⟩

/-- C8: the diagnostic message is a present string exactly when the current
status is Error, and absent (NULL) otherwise — each call reflects the
current status and never leaks prior error text. -/
theorem C8_error_message_iff_error (st : SystemState) :
    (daemonStatus st = .Error → ∃ m, kogu_get_daemon_error_message st = some m) ∧
    (daemonStatus st ≠ .Error → kogu_get_daemon_error_message st = none) := by
  constructor
  · intro h
    have hsome := daemonStatus_error_isSome st h
    rw [kogu_get_daemon_error_message, if_pos h]
    exact Option.isSome_iff_exists.mp hsome
  · intro h
    rw [kogu_get_daemon_error_message, if_neg h]

/-- C8 witness: a state in Error status yields a message; a healthy state
yields none. -/
theorem C8_error_message_iff_error_witness :
    (∃ m, kogu_get_daemon_error_message ⟨true, some "boom", true, true⟩ = some m) ∧
    kogu_get_daemon_error_message ⟨true, none, true, true⟩ = none :=
  ⟨(C8_error_message_iff_error ⟨true, some "boom", true, true⟩).1 (by decide),
   (C8_error_message_iff_error ⟨true, none, true, true⟩).2 (by decide)⟩

/-- C9: releasing an absent (null) boundary string is safe and a no-op. -/
theorem C9_free_null_noop (h : Heap) : kogu_free_string h none = h := rfl

/-- C10: for checkPrivileges, discover and scan, the out_error_message slot
holds a string exactly when the boolean result is false, and is NULL when
the result is true. -/
theorem C10_error_slot_agrees (st : XpcState) (req : List Nat)
    (frames : List OpEvent) :
    ((kogu_xpc_discover st req frames).1.2.isSome ↔
      (kogu_xpc_discover st req frames).1.1 = false) ∧
    ((kogu_xpc_scan st req frames).1.2.isSome ↔
      (kogu_xpc_scan st req frames).1.1 = false) ∧
    ((kogu_xpc_check_privileges st).2.2.isSome ↔
      (kogu_xpc_check_privileges st).1 = false) := by
  refine ⟨?_, ?_, ?_⟩
  · unfold kogu_xpc_discover
    split_ifs
    · simp [ffiResult]
    · cases houtcome : outcomeOf frames <;> simp [ffiResult]
  · unfold kogu_xpc_scan
    split_ifs
    · simp [ffiResult]
    · cases houtcome : outcomeOf frames <;> simp [ffiResult]
  · unfold kogu_xpc_check_privileges
    split_ifs <;> simp

/-- C10 witness: a disconnected privilege check returns false with an error
message present. -/
theorem C10_error_slot_agrees_witness :
    (kogu_xpc_check_privileges ⟨.Disconnected, true, true, []⟩).1 = false :=
  (C10_error_slot_agrees ⟨.Disconnected, true, true, []⟩ [] []).2.2.mp (by decide)

end Kogu
